import Mathlib

/-!
Shallow embedding of the irrigation controller (states.h, analog_sensors.h,
pump_driver.h, action_decider.h): severity levels, per-sensor threshold
classifiers, the pump driver, and the rule cascade of
ActionDecider::DecideAction, together with theorems checking the
specification's claims against these definitions.
-/

/-- Severity levels of an environmental sensor reading, as declared in
states.h.  The C++ enum assigns the five ordinal levels the values 0..4 and
the sentinel INVALID_STATE the value INT32_MAX. -/
inductive SensorStateLevel
  | TOO_LOW
  | DANGER_LOW
  | OK
  | DANGER_HIGH
  | TOO_HIGH
  | INVALID_STATE
  deriving DecidableEq, Repr, Fintype

/-- Numeric value of each enumerator as assigned in states.h
(INVALID_STATE = INT32_MAX = 2147483647).  The comparisons in
ActionDecider::DecideAction cast enumerators to int, i.e. compare through
this value. -/
def SensorStateLevel.toInt : SensorStateLevel → Int
  | .TOO_LOW => 0
  | .DANGER_LOW => 1
  | .OK => 2
  | .DANGER_HIGH => 3
  | .TOO_HIGH => 4
  | .INVALID_STATE => 2147483647

namespace SoilMoistureSensor

/-- Soaking wet soil, or stagnant water. -/
def THRESH_TOO_WET : Nat := 350
/-- Soil is well saturated with water. -/
def THRESH_DANGEROUSLY_WET : Nat := 450
/-- Perfect soil-water saturation. -/
def THRESH_OK : Nat := 550
/-- Damp soil, on the verge of drying out. -/
def THRESH_DANGEROUSLY_DRY : Nat := 650
/-- Bone dry soil. -/
def THRESH_TOO_DRY : Nat := 1023

/-- SoilMoistureSensor::get_state from analog_sensors.h: ascending
inclusive-upper-bound threshold ladder on the raw reading.  The scale is
inverted: a low raw value means wet soil, classified TOO_HIGH. -/
def get_state (value : Nat) : SensorStateLevel :=
  if value ≤ THRESH_TOO_WET then .TOO_HIGH
  else if value ≤ THRESH_DANGEROUSLY_WET then .DANGER_HIGH
  else if value ≤ THRESH_OK then .OK
  else if value ≤ THRESH_DANGEROUSLY_DRY then .DANGER_LOW
  else if value ≤ THRESH_TOO_DRY then .TOO_LOW
  else .INVALID_STATE

end SoilMoistureSensor

namespace PHSensor

/-- Lower bound of acceptable pH. -/
def PH_TOO_LOW : ℚ := 5.8
/-- Lower danger bound. -/
def PH_DANGER_LOW : ℚ := 6.1
/-- Center of the acceptable band. -/
def PH_OK : ℚ := 7.0
/-- Upper danger bound. -/
def PH_DANGER_HIGH : ℚ := 7.5
/-- Upper end of the pH scale. -/
def PH_TOO_HIGH : ℚ := 14.0

/-- PHSensor::get_state from analog_sensors.h, on the value already mapped
onto the 0.0..14.0 scale.  The C++ code uses 32-bit floats; all threshold
constants and the mapping are exactly representable questions of ordering,
modelled here over the rationals. -/
def get_state (value : ℚ) : SensorStateLevel :=
  if value ≤ PH_TOO_LOW then .TOO_LOW
  else if value ≤ PH_DANGER_LOW then .DANGER_LOW
  else if value ≤ PH_OK then .OK
  else if value ≤ PH_DANGER_HIGH then .DANGER_HIGH
  else if value ≤ PH_TOO_HIGH then .TOO_HIGH
  else .INVALID_STATE

end PHSensor

namespace WaterLevelSensor

/-- There is enough water still in the reservoir. -/
def THRESH_OK : Nat := 1024
/-- The water in the reservoir is running low. -/
def THRESH_DANGER_LOW : Nat := 450
/-- There is no more, or barely any at all, water left in the reservoir. -/
def THRESH_DRY : Nat := 200

/-- WaterLevelSensor::get_state from analog_sensors.h: limited range of
SensorStateLevel, TOO_LOW, DANGER_LOW and OK only (plus INVALID_STATE). -/
def get_state (val : Nat) : SensorStateLevel :=
  if val ≤ THRESH_DRY then .TOO_LOW
  else if val ≤ THRESH_DANGER_LOW then .DANGER_LOW
  else if val ≤ THRESH_OK then .OK
  else .INVALID_STATE

end WaterLevelSensor

namespace WaterDetectionSensor

/-- Water is detected. -/
def THRESH_ON : Nat := 1024
/-- No water detected. -/
def THRESH_OFF : Nat := 50

/-- WaterDetectionSensor::get_state from analog_sensors.h: limited range of
SensorStateLevel, OK and TOO_HIGH only (plus INVALID_STATE). -/
def get_state (val : Nat) : SensorStateLevel :=
  if val ≤ THRESH_OFF then .OK
  else if val ≤ THRESH_ON then .TOO_HIGH
  else .INVALID_STATE

end WaterDetectionSensor

/-- State of the pump driver from pump_driver.h: the fixed output pin, the
software-tracked on/off mirror, and the last level written to the digital
output line (HIGH = true), modelling digitalWrite. -/
structure PumpDriver where
  pin : Nat
  «on» : Bool
  level : Bool
  deriving DecidableEq, Repr

/-- PumpDriver::turn_on: records on = true and writes HIGH to the pin. -/
def PumpDriver.turn_on (p : PumpDriver) : PumpDriver :=
  { p with «on» := true, level := true }

/-- PumpDriver::turn_off: records on = false and writes LOW to the pin. -/
def PumpDriver.turn_off (p : PumpDriver) : PumpDriver :=
  { p with «on» := false, level := false }

/-- PumpDriver::is_on: returns the software-tracked state. -/
def PumpDriver.is_on (p : PumpDriver) : Bool :=
  p.«on»

/-- Raw analog readings available on the four sensor channels in one decision
cycle (pins A1 soil moisture, A2 pH, A3 water level, A6 water detection).
The pH channel exists on the hardware but its sensor is commented out of
ActionDecider, which never reads it. -/
structure Readings where
  sm_raw : Nat
  ph_raw : Nat
  wl_raw : Nat
  wd_raw : Nat
  deriving DecidableEq, Repr

/-- Step 1 condition of ActionDecider::DecideAction (action_decider.h):
any of the sensors reports an invalid state. -/
def invalidVeto (sm_state ph_state wl_state wd_state : SensorStateLevel) : Bool :=
  sm_state == .INVALID_STATE ||
  ph_state == .INVALID_STATE ||
  wl_state == .INVALID_STATE ||
  wd_state == .INVALID_STATE

/-- Step 2 condition on pH in ActionDecider::DecideAction: pH has to be in
the range DANGER_LOW..DANGER_HIGH, or rather, not TOO_LOW or TOO_HIGH. -/
def phOutOfRange (ph_state : SensorStateLevel) : Bool :=
  ph_state == .TOO_LOW || ph_state == .TOO_HIGH

/-- The ordered rule cascade of ActionDecider::DecideAction, as a function of
the four classified severity states: invalid-state veto, dry-tank veto,
pH-out-of-range veto, standard run condition, bone-dry override, default
off.  The range checks of the standard run condition compare through the
enumerators' int values, as the C++ casts do. -/
def decideCascade (sm_state ph_state wl_state wd_state : SensorStateLevel) : Bool :=
  if invalidVeto sm_state ph_state wl_state wd_state then false
  else if wl_state == .TOO_LOW then false
  else if phOutOfRange ph_state then false
  else if wd_state == .OK &&
      decide (SensorStateLevel.OK.toInt ≤ wl_state.toInt) &&
      decide (wl_state.toInt ≤ SensorStateLevel.TOO_HIGH.toInt) &&
      decide (sm_state.toInt ≤ SensorStateLevel.DANGER_HIGH.toInt) then true
  else if (wd_state == .OK || wd_state == .TOO_HIGH) && sm_state == .TOO_LOW then true
  else false

/-- ActionDecider::DecideAction: classifies the readings of the three wired
sensors, fixes the pH state to OK (the physical pH sensor is faulty and is
commented out), and evaluates the rule cascade. -/
def DecideAction (r : Readings) : Bool :=
  let sm_state := SoilMoistureSensor.get_state r.sm_raw
  let ph_state := SensorStateLevel.OK
  let wl_state := WaterLevelSensor.get_state r.wl_raw
  let wd_state := WaterDetectionSensor.get_state r.wd_raw
  decideCascade sm_state ph_state wl_state wd_state

/-- ActionDecider::DecidePump: calls DecideAction, turns the pump on or off
depending on the result, and returns the decision together with the updated
pump driver state. -/
def DecidePump (r : Readings) (pd : PumpDriver) : Bool × PumpDriver :=
  if DecideAction r then (true, pd.turn_on)
  else (false, pd.turn_off)

/-- Helper: the step 1 veto condition is false exactly when none of the four
states is INVALID_STATE. -/
theorem invalidVeto_eq_false (a b c d : SensorStateLevel) :
    invalidVeto a b c d = false ↔
      a ≠ .INVALID_STATE ∧ b ≠ .INVALID_STATE ∧ c ≠ .INVALID_STATE ∧ d ≠ .INVALID_STATE := by
  simp [invalidVeto, and_assoc]

/-- C1: whenever at least one of the four severity inputs equals
INVALID_STATE, the rule cascade of DecideAction returns false, so the pump
never runs on a sensor fault. -/
theorem cascade_invalid_veto :
    ∀ sm ph wl wd : SensorStateLevel,
      (sm = .INVALID_STATE ∨ ph = .INVALID_STATE ∨ wl = .INVALID_STATE ∨ wd = .INVALID_STATE) →
      decideCascade sm ph wl wd = false := by
  decide

/-- Witness for C1: soilMoisture OK, pH INVALID_STATE, waterLevel OK,
waterDetection OK yields false. -/
theorem cascade_invalid_veto_witness :
    decideCascade .OK .INVALID_STATE .OK .OK = false :=
  cascade_invalid_veto .OK .INVALID_STATE .OK .OK (Or.inr (Or.inl rfl))

set_option synthInstance.maxSize 1000 in
/-- C2: when no input is INVALID_STATE, the water level is not TOO_LOW, the
pH is neither TOO_LOW nor TOO_HIGH, water detection is OK, the water level
lies in the ordinal range OK..TOO_HIGH and the soil moisture lies in the
ordinal range TOO_LOW..DANGER_HIGH (under the int comparison the program
uses), the cascade decides true. -/
theorem cascade_standard_run :
    ∀ sm ph wl wd : SensorStateLevel,
      sm ≠ .INVALID_STATE → ph ≠ .INVALID_STATE → wl ≠ .INVALID_STATE → wd ≠ .INVALID_STATE →
      wl ≠ .TOO_LOW → ph ≠ .TOO_LOW → ph ≠ .TOO_HIGH →
      wd = .OK →
      SensorStateLevel.OK.toInt ≤ wl.toInt → wl.toInt ≤ SensorStateLevel.TOO_HIGH.toInt →
      SensorStateLevel.TOO_LOW.toInt ≤ sm.toInt → sm.toInt ≤ SensorStateLevel.DANGER_HIGH.toInt →
      decideCascade sm ph wl wd = true := by
  decide

/-- Witness for C2: soilMoisture DANGER_HIGH, pH OK, waterLevel TOO_HIGH,
waterDetection OK yields true. -/
theorem cascade_standard_run_witness :
    decideCascade .DANGER_HIGH .OK .TOO_HIGH .OK = true :=
  cascade_standard_run .DANGER_HIGH .OK .TOO_HIGH .OK
    (by decide) (by decide) (by decide) (by decide) (by decide) (by decide)
    (by decide) (by decide) (by decide) (by decide) (by decide) (by decide)

/-- C3: when no input is INVALID_STATE, the water level is not TOO_LOW, the
pH is neither TOO_LOW nor TOO_HIGH, water detection is OK or TOO_HIGH, and
the soil moisture equals exactly TOO_LOW, the cascade decides true (bone-dry
soil overrides standing water). -/
theorem cascade_bone_dry_override :
    ∀ sm ph wl wd : SensorStateLevel,
      sm ≠ .INVALID_STATE → ph ≠ .INVALID_STATE → wl ≠ .INVALID_STATE → wd ≠ .INVALID_STATE →
      wl ≠ .TOO_LOW → ph ≠ .TOO_LOW → ph ≠ .TOO_HIGH →
      (wd = .OK ∨ wd = .TOO_HIGH) → sm = .TOO_LOW →
      decideCascade sm ph wl wd = true := by
  decide

/-- Witness for C3: soilMoisture TOO_LOW, pH OK, waterLevel OK,
waterDetection TOO_HIGH yields true. -/
theorem cascade_bone_dry_override_witness :
    decideCascade .TOO_LOW .OK .OK .TOO_HIGH = true :=
  cascade_bone_dry_override .TOO_LOW .OK .OK .TOO_HIGH
    (by decide) (by decide) (by decide) (by decide) (by decide) (by decide)
    (by decide) (Or.inr rfl) rfl

/-- C4 counterexample: under the int comparison the program uses on severity
levels, the ordinal level OK IS less than the sentinel INVALID_STATE
(2 < INT32_MAX), refuting the claim that INVALID_STATE compares as neither
less nor greater than the five ordinal levels. -/
theorem sentinel_not_unordered :
    SensorStateLevel.OK.toInt < SensorStateLevel.INVALID_STATE.toInt := by
  decide

/-- C4 (amended): under the int comparison the program uses, INVALID_STATE
compares as strictly greater than every ordinal level (never less), and
consequently it never satisfies the ordinal range checks of rules 4 and 5,
whose upper bounds are TOO_HIGH and DANGER_HIGH. -/
theorem sentinel_above_ordinals :
    ∀ L : SensorStateLevel, L ≠ .INVALID_STATE →
      (¬ SensorStateLevel.INVALID_STATE.toInt < L.toInt ∧
        L.toInt < SensorStateLevel.INVALID_STATE.toInt) ∧
      ¬ (SensorStateLevel.OK.toInt ≤ SensorStateLevel.INVALID_STATE.toInt ∧
         SensorStateLevel.INVALID_STATE.toInt ≤ SensorStateLevel.TOO_HIGH.toInt) ∧
      ¬ SensorStateLevel.INVALID_STATE.toInt ≤ SensorStateLevel.DANGER_HIGH.toInt := by
  decide

/-- Witness for the amended C4 at the ordinal level OK. -/
theorem sentinel_above_ordinals_witness :
    (¬ SensorStateLevel.INVALID_STATE.toInt < SensorStateLevel.OK.toInt ∧
      SensorStateLevel.OK.toInt < SensorStateLevel.INVALID_STATE.toInt) ∧
    ¬ (SensorStateLevel.OK.toInt ≤ SensorStateLevel.INVALID_STATE.toInt ∧
       SensorStateLevel.INVALID_STATE.toInt ≤ SensorStateLevel.TOO_HIGH.toInt) ∧
    ¬ SensorStateLevel.INVALID_STATE.toInt ≤ SensorStateLevel.DANGER_HIGH.toInt :=
  sentinel_above_ordinals .OK (by decide)

/-- C5: every raw value at or below a classifier's lowest threshold is
classified as its table's first level, and every value above its highest
threshold as INVALID_STATE; for the inverted soil-moisture scale in
particular, 0 classifies as TOO_HIGH, 1023 as TOO_LOW and 2000 as
INVALID_STATE.  The pH classifier is stated over its mapped 0..14 value. -/
theorem classify_boundary (v : Nat) (q : ℚ) :
    (v ≤ SoilMoistureSensor.THRESH_TOO_WET →
      SoilMoistureSensor.get_state v = .TOO_HIGH) ∧
    (SoilMoistureSensor.THRESH_TOO_DRY < v →
      SoilMoistureSensor.get_state v = .INVALID_STATE) ∧
    (v ≤ WaterLevelSensor.THRESH_DRY →
      WaterLevelSensor.get_state v = .TOO_LOW) ∧
    (WaterLevelSensor.THRESH_OK < v →
      WaterLevelSensor.get_state v = .INVALID_STATE) ∧
    (v ≤ WaterDetectionSensor.THRESH_OFF →
      WaterDetectionSensor.get_state v = .OK) ∧
    (WaterDetectionSensor.THRESH_ON < v →
      WaterDetectionSensor.get_state v = .INVALID_STATE) ∧
    (q ≤ PHSensor.PH_TOO_LOW → PHSensor.get_state q = .TOO_LOW) ∧
    (PHSensor.PH_TOO_HIGH < q → PHSensor.get_state q = .INVALID_STATE) ∧
    SoilMoistureSensor.get_state 0 = .TOO_HIGH ∧
    SoilMoistureSensor.get_state 1023 = .TOO_LOW ∧
    SoilMoistureSensor.get_state 2000 = .INVALID_STATE := by
  refine ⟨?_, ?_, ?_, ?_, ?_, ?_, ?_, ?_, by decide, by decide, by decide⟩ <;> intro h
  · simp only [SoilMoistureSensor.get_state, SoilMoistureSensor.THRESH_TOO_WET,
      SoilMoistureSensor.THRESH_DANGEROUSLY_WET, SoilMoistureSensor.THRESH_OK,
      SoilMoistureSensor.THRESH_DANGEROUSLY_DRY, SoilMoistureSensor.THRESH_TOO_DRY] at h ⊢
    split_ifs
    rfl
  · simp only [SoilMoistureSensor.get_state, SoilMoistureSensor.THRESH_TOO_WET,
      SoilMoistureSensor.THRESH_DANGEROUSLY_WET, SoilMoistureSensor.THRESH_OK,
      SoilMoistureSensor.THRESH_DANGEROUSLY_DRY, SoilMoistureSensor.THRESH_TOO_DRY] at h ⊢
    split_ifs <;> first | rfl | omega
  · simp only [WaterLevelSensor.get_state, WaterLevelSensor.THRESH_DRY,
      WaterLevelSensor.THRESH_DANGER_LOW, WaterLevelSensor.THRESH_OK] at h ⊢
    split_ifs
    rfl
  · simp only [WaterLevelSensor.get_state, WaterLevelSensor.THRESH_DRY,
      WaterLevelSensor.THRESH_DANGER_LOW, WaterLevelSensor.THRESH_OK] at h ⊢
    split_ifs <;> first | rfl | omega
  · simp only [WaterDetectionSensor.get_state, WaterDetectionSensor.THRESH_OFF,
      WaterDetectionSensor.THRESH_ON] at h ⊢
    split_ifs
    rfl
  · simp only [WaterDetectionSensor.get_state, WaterDetectionSensor.THRESH_OFF,
      WaterDetectionSensor.THRESH_ON] at h ⊢
    split_ifs <;> first | rfl | omega
  · simp only [PHSensor.get_state, PHSensor.PH_TOO_LOW, PHSensor.PH_DANGER_LOW,
      PHSensor.PH_OK, PHSensor.PH_DANGER_HIGH, PHSensor.PH_TOO_HIGH] at h ⊢
    split_ifs
    rfl
  · simp only [PHSensor.get_state, PHSensor.PH_TOO_LOW, PHSensor.PH_DANGER_LOW,
      PHSensor.PH_OK, PHSensor.PH_DANGER_HIGH, PHSensor.PH_TOO_HIGH] at h ⊢
    split_ifs <;> first | rfl | linarith

/-- Witness for C5 at the boundary inputs named by the claim. -/
theorem classify_boundary_witness :
    SoilMoistureSensor.get_state 0 = .TOO_HIGH ∧
    SoilMoistureSensor.get_state 2000 = .INVALID_STATE ∧
    WaterLevelSensor.get_state 100 = .TOO_LOW ∧
    WaterLevelSensor.get_state 1030 = .INVALID_STATE ∧
    WaterDetectionSensor.get_state 40 = .OK ∧
    WaterDetectionSensor.get_state 1025 = .INVALID_STATE ∧
    PHSensor.get_state 5 = .TOO_LOW ∧
    PHSensor.get_state 15 = .INVALID_STATE :=
  ⟨(classify_boundary 0 0).1 (by decide),
   (classify_boundary 2000 0).2.1 (by decide),
   (classify_boundary 100 0).2.2.1 (by decide),
   (classify_boundary 1030 0).2.2.2.1 (by decide),
   (classify_boundary 40 0).2.2.2.2.1 (by decide),
   (classify_boundary 1025 0).2.2.2.2.2.1 (by decide),
   (classify_boundary 0 5).2.2.2.2.2.2.1 (by norm_num [PHSensor.PH_TOO_LOW]),
   (classify_boundary 0 15).2.2.2.2.2.2.2.1 (by norm_num [PHSensor.PH_TOO_HIGH])⟩

/-- C6: the water-level classifier only ever returns TOO_LOW, DANGER_LOW, OK
or INVALID_STATE, and the water-detection classifier only ever returns OK,
TOO_HIGH or INVALID_STATE. -/
theorem classifier_range_subset (v : Nat) :
    (WaterLevelSensor.get_state v = .TOO_LOW ∨
     WaterLevelSensor.get_state v = .DANGER_LOW ∨
     WaterLevelSensor.get_state v = .OK ∨
     WaterLevelSensor.get_state v = .INVALID_STATE) ∧
    (WaterDetectionSensor.get_state v = .OK ∨
     WaterDetectionSensor.get_state v = .TOO_HIGH ∨
     WaterDetectionSensor.get_state v = .INVALID_STATE) := by
  constructor
  · unfold WaterLevelSensor.get_state
    split_ifs <;> simp
  · unfold WaterDetectionSensor.get_state
    split_ifs <;> simp

/-- C7: DecidePump returns the decision of DecideAction, leaves the pump
driver with is_on equal to that decision, and modifies nothing but the
pump's on/off state and its mirrored output line: the pin binding is
unchanged. -/
theorem decidePump_actuates (r : Readings) (pd : PumpDriver) :
    (DecidePump r pd).1 = DecideAction r ∧
    ((DecidePump r pd).2).is_on = (DecidePump r pd).1 ∧
    ((DecidePump r pd).2).pin = pd.pin := by
  unfold DecidePump
  split_ifs with h <;>
    simp [h, PumpDriver.is_on, PumpDriver.turn_on, PumpDriver.turn_off]

/-- C8: turn_on is idempotent: after two consecutive turn_on calls from any
starting state, is_on is true, and the second call leaves the tracked state
exactly as the first call left it. -/
theorem turn_on_idempotent (p : PumpDriver) :
    (p.turn_on.turn_on).is_on = true ∧ p.turn_on.turn_on = p.turn_on :=
  ⟨rfl, rfl⟩

/-- Witness for C8 at a concrete driver state. -/
theorem turn_on_idempotent_witness :
    ((PumpDriver.mk 2 false false).turn_on.turn_on).is_on = true ∧
    (PumpDriver.mk 2 false false).turn_on.turn_on = (PumpDriver.mk 2 false false).turn_on :=
  turn_on_idempotent (PumpDriver.mk 2 false false)

/-- C9: for raw readings in the declared 0..1023 domain, none of the three
wired classifiers returns INVALID_STATE, and hence the invalid-state veto of
DecideAction (whose pH state is fixed to OK) evaluates to false. -/
theorem in_range_no_invalid (sm_raw wl_raw wd_raw : Nat)
    (h1 : sm_raw ≤ 1023) (h2 : wl_raw ≤ 1023) (h3 : wd_raw ≤ 1023) :
    SoilMoistureSensor.get_state sm_raw ≠ .INVALID_STATE ∧
    WaterLevelSensor.get_state wl_raw ≠ .INVALID_STATE ∧
    WaterDetectionSensor.get_state wd_raw ≠ .INVALID_STATE ∧
    invalidVeto (SoilMoistureSensor.get_state sm_raw) .OK
      (WaterLevelSensor.get_state wl_raw) (WaterDetectionSensor.get_state wd_raw) = false := by
  have hsm : SoilMoistureSensor.get_state sm_raw ≠ .INVALID_STATE := by
    simp only [SoilMoistureSensor.get_state, SoilMoistureSensor.THRESH_TOO_WET,
      SoilMoistureSensor.THRESH_DANGEROUSLY_WET, SoilMoistureSensor.THRESH_OK,
      SoilMoistureSensor.THRESH_DANGEROUSLY_DRY, SoilMoistureSensor.THRESH_TOO_DRY]
    split_ifs <;> first | omega | simp
  have hwl : WaterLevelSensor.get_state wl_raw ≠ .INVALID_STATE := by
    simp only [WaterLevelSensor.get_state, WaterLevelSensor.THRESH_DRY,
      WaterLevelSensor.THRESH_DANGER_LOW, WaterLevelSensor.THRESH_OK]
    split_ifs <;> first | omega | simp
  have hwd : WaterDetectionSensor.get_state wd_raw ≠ .INVALID_STATE := by
    simp only [WaterDetectionSensor.get_state, WaterDetectionSensor.THRESH_OFF,
      WaterDetectionSensor.THRESH_ON]
    split_ifs <;> first | omega | simp
  refine ⟨hsm, hwl, hwd, ?_⟩
  rw [invalidVeto_eq_false]
  exact ⟨hsm, by simp, hwl, hwd⟩

/-- Witness for C9 at in-range readings 0, 600, 1023. -/
theorem in_range_no_invalid_witness :
    SoilMoistureSensor.get_state 0 ≠ .INVALID_STATE ∧
    WaterLevelSensor.get_state 600 ≠ .INVALID_STATE ∧
    WaterDetectionSensor.get_state 1023 ≠ .INVALID_STATE ∧
    invalidVeto (SoilMoistureSensor.get_state 0) .OK
      (WaterLevelSensor.get_state 600) (WaterDetectionSensor.get_state 1023) = false :=
  in_range_no_invalid 0 600 1023 (by decide) (by decide) (by decide)

/-- C10: DecideAction is independent of the pH channel: two reading vectors
that agree on the soil-moisture, water-level and water-detection channels
produce the same decision regardless of their pH readings, and the
pH-out-of-range veto condition is false at the OK state the function
hardcodes. -/
theorem decideAction_ph_independent (r1 r2 : Readings)
    (hsm : r1.sm_raw = r2.sm_raw) (hwl : r1.wl_raw = r2.wl_raw) (hwd : r1.wd_raw = r2.wd_raw) :
    DecideAction r1 = DecideAction r2 ∧ phOutOfRange .OK = false := by
  unfold DecideAction
  rw [hsm, hwl, hwd]
  exact ⟨rfl, rfl⟩

/-- Witness for C10: two reading vectors differing only in the pH channel. -/
theorem decideAction_ph_independent_witness :
    DecideAction ⟨0, 0, 0, 0⟩ = DecideAction ⟨0, 999, 0, 0⟩ ∧
    phOutOfRange .OK = false :=
  decideAction_ph_independent ⟨0, 0, 0, 0⟩ ⟨0, 999, 0, 0⟩ rfl rfl rfl
